import Mathlib

/-!
Shallow embedding of the cost-and-optimization engine of the `kcavo`
kubectl plugin (packages `pkg/cost`, `pkg/gpu`, `pkg/optimize`).

Modelling conventions:
* `float64` arithmetic is modelled by exact rational arithmetic (`ℚ`);
  decimal literals such as `0.3` denote the exact rational value.
* Kubernetes `resource.Quantity` values are modelled by their exact numeric
  value: fractional CPU cores as `ℚ` (`AsApproximateFloat64`), memory bytes
  and GPU units as `ℤ` (`Value()`).  The display strings produced by
  `Quantity.String()` are modelled by the underlying numeric values.
* Resource maps (`Requests`/`Limits`, node `Capacity`/`Allocatable`) are
  read by the engine only at the keys `cpu`, `memory` and `nvidia.com/gpu`,
  so they are modelled as a record of three optional entries; absent keys
  yield the zero `Quantity`, i.e. `Option.getD 0`.
* `sort.Slice` from the Go standard library is documented as NOT guaranteed
  to be stable; it is modelled by its contract: the output is a permutation
  of the input that is sorted with respect to the supplied comparison.
  `CalculatePodCosts` is therefore modelled as a relation between its
  arguments and its possible results.
-/

namespace Kcavo

/-- Resource map of a container or node: the engine reads only the keys
`cpu` (fractional cores), `memory` (bytes) and `nvidia.com/gpu` (units).
`none` models an absent key. -/
structure ResourceList where
  cpu : Option ℚ
  memory : Option ℤ
  gpu : Option ℤ
deriving DecidableEq, Repr

/-- Empty resource map (no keys set). -/
def ResourceList.empty : ResourceList := ⟨none, none, none⟩

/-- Container spec: `Resources.Requests` and `Resources.Limits`. -/
structure Container where
  Requests : ResourceList
  Limits : ResourceList
deriving DecidableEq, Repr

/-- Pod record, flattened to the fields the engine reads:
`pod.Name`, `pod.Namespace`, `pod.Spec.NodeName`, `pod.Status.Phase`,
`pod.Spec.Containers`. -/
structure Pod where
  Name : String
  Namespace : String
  NodeName : String
  Phase : String
  Containers : List Container
deriving DecidableEq, Repr

/-- Node record, flattened to the fields the engine reads:
`node.Name`, `node.Status.Capacity`, `node.Status.Allocatable`, and the two
labels `nvidia.com/gpu.product` and `accelerator`. -/
structure Node where
  Name : String
  Capacity : ResourceList
  Allocatable : ResourceList
  labelGpuProduct : Option String
  labelAccelerator : Option String
deriving DecidableEq, Repr

/-! ## pkg/cost/pricing.go -/

/-- Pricing contains the pricing information for resources. -/
structure Pricing where
  CPUHourlyCost : ℚ
  MemoryGBHourly : ℚ
  GPUHourlyCost : ℚ
  StorageGBMonthly : ℚ
deriving DecidableEq, Repr

/-- DefaultPricing returns default AWS-like pricing. -/
def DefaultPricing : Pricing :=
  { CPUHourlyCost := 0.024
    MemoryGBHourly := 0.003
    GPUHourlyCost := 0.90
    StorageGBMonthly := 0.10 }

/-- GCPPricing returns Google Cloud pricing. -/
def GCPPricing : Pricing :=
  { CPUHourlyCost := 0.022
    MemoryGBHourly := 0.003
    GPUHourlyCost := 0.85
    StorageGBMonthly := 0.10 }

/-- AzurePricing returns Azure pricing. -/
def AzurePricing : Pricing :=
  { CPUHourlyCost := 0.025
    MemoryGBHourly := 0.003
    GPUHourlyCost := 0.95
    StorageGBMonthly := 0.12 }

/-- Average hours in a month, the fixed constant `730.0` used by the
monthly-cost conversions. -/
def hoursPerMonth : ℚ := 730.0

/-- CalculateCPUCost calculates monthly cost for CPU cores. -/
def Pricing.CalculateCPUCost (p : Pricing) (cores : ℚ) : ℚ :=
  cores * p.CPUHourlyCost * hoursPerMonth

/-- CalculateMemoryCost calculates monthly cost for memory (bytes). -/
def Pricing.CalculateMemoryCost (p : Pricing) (bytes : ℤ) : ℚ :=
  ((bytes : ℚ) / (1024 * 1024 * 1024)) * p.MemoryGBHourly * hoursPerMonth

/-- CalculateGPUCost calculates monthly cost for GPUs. -/
def Pricing.CalculateGPUCost (p : Pricing) (count : ℤ) : ℚ :=
  (count : ℚ) * p.GPUHourlyCost * hoursPerMonth

/-- CalculateStorageCost calculates monthly cost for storage (bytes). -/
def Pricing.CalculateStorageCost (p : Pricing) (bytes : ℤ) : ℚ :=
  ((bytes : ℚ) / (1024 * 1024 * 1024)) * p.StorageGBMonthly

/-! ## pkg/cost/calculator.go -/

/-- PodCost represents the cost breakdown for a pod.  The four trailing
request/limit fields hold the summed quantities whose `String()` rendering
the Go struct stores for display. -/
structure PodCost where
  Name : String
  Namespace : String
  Node : String
  CPUCost : ℚ
  MemoryCost : ℚ
  GPUCost : ℚ
  GPUCount : ℤ
  TotalCost : ℚ
  CPURequest : ℚ
  MemRequest : ℤ
  CPULimit : ℚ
  MemLimit : ℤ
deriving DecidableEq, Repr

/-- Sum of the per-container CPU requests of a pod (the `cpuRequest`
accumulator of `calculatePodCost`). -/
def podCpuRequest (pod : Pod) : ℚ :=
  (pod.Containers.map (fun c => c.Requests.cpu.getD 0)).sum

/-- Sum of the per-container memory requests of a pod (the `memRequest`
accumulator of `calculatePodCost`). -/
def podMemRequest (pod : Pod) : ℤ :=
  (pod.Containers.map (fun c => c.Requests.memory.getD 0)).sum

/-- Sum of the per-container CPU limits of a pod (the `cpuLimit`
accumulator of `calculatePodCost`). -/
def podCpuLimit (pod : Pod) : ℚ :=
  (pod.Containers.map (fun c => c.Limits.cpu.getD 0)).sum

/-- Sum of the per-container memory limits of a pod (the `memLimit`
accumulator of `calculatePodCost`). -/
def podMemLimit (pod : Pod) : ℤ :=
  (pod.Containers.map (fun c => c.Limits.memory.getD 0)).sum

/-- GPU unit count of a pod as extracted by `calculatePodCost`: the
`nvidia.com/gpu` entry of every container is added from BOTH the requests
map and the limits map (the `gpuCount` accumulator). -/
def podGpuCount (pod : Pod) : ℤ :=
  (pod.Containers.map (fun c => c.Requests.gpu.getD 0 + c.Limits.gpu.getD 0)).sum

/-- Billable CPU quantity: `cpuToUse` of `calculatePodCost` — the request
sum, or the limit sum when the request sum is zero. -/
def billableCpu (pod : Pod) : ℚ :=
  if podCpuRequest pod = 0 then podCpuLimit pod else podCpuRequest pod

/-- Billable memory quantity: `memToUse` of `calculatePodCost` — the
request sum, or the limit sum when the request sum is zero. -/
def billableMem (pod : Pod) : ℤ :=
  if podMemRequest pod = 0 then podMemLimit pod else podMemRequest pod

/-- calculatePodCost calculates the cost for a single pod. -/
def calculatePodCost (pricing : Pricing) (pod : Pod) : PodCost :=
  let cpuCost := pricing.CalculateCPUCost (billableCpu pod)
  let memCost := pricing.CalculateMemoryCost (billableMem pod)
  let gpuCost := pricing.CalculateGPUCost (podGpuCount pod)
  { Name := pod.Name
    Namespace := pod.Namespace
    Node := pod.NodeName
    CPUCost := cpuCost
    MemoryCost := memCost
    GPUCost := gpuCost
    GPUCount := podGpuCount pod
    TotalCost := cpuCost + memCost + gpuCost
    CPURequest := podCpuRequest pod
    MemRequest := podMemRequest pod
    CPULimit := podCpuLimit pod
    MemLimit := podMemLimit pod }

/-- Cost entries of the Running pods, in input order: the `results` slice
of `CalculatePodCosts` as it stands right before the `sort.Slice` call. -/
def runningPodCosts (pricing : Pricing) (pods : List Pod) : List PodCost :=
  (pods.filter (fun pod => pod.Phase == "Running")).map (calculatePodCost pricing)

/-- Sortedness contract of the `sort.Slice` call in `CalculatePodCosts`:
for every pair of positions `i < j` the less-function
`results[j].TotalCost > results[i].TotalCost` is false, i.e. `TotalCost`
is non-increasing. -/
def SortedByTotalCostDesc (l : List PodCost) : Prop :=
  l.Pairwise (fun a b => b.TotalCost ≤ a.TotalCost)

/-- CalculatePodCosts calculates costs for all pods: filter to Running
pods, cost each, then `sort.Slice` descending by `TotalCost`.  Because
`sort.Slice` is documented as not guaranteed to be stable, the function is
modelled by its contract: `out` is a possible result iff it is a
permutation of the Running-pod cost entries that is sorted descending by
`TotalCost`.  The `nodes` parameter is part of the Go signature but is
never read by the function body. -/
def CalculatePodCosts (pricing : Pricing) (pods : List Pod) (nodes : List Node)
    (out : List PodCost) : Prop :=
  out.Perm (runningPodCosts pricing pods) ∧ SortedByTotalCostDesc out

instance (l : List PodCost) : Decidable (SortedByTotalCostDesc l) := by
  unfold SortedByTotalCostDesc
  infer_instance

instance (pricing : Pricing) (pods : List Pod) (nodes : List Node) (out : List PodCost) :
    Decidable (CalculatePodCosts pricing pods nodes out) := by
  unfold CalculatePodCosts
  exact instDecidableAnd

/-- CalculateNodeCost calculates the total cost for a node: CPU and memory
capacity plus the `nvidia.com/gpu` capacity when present. -/
def CalculateNodeCost (pricing : Pricing) (node : Node) : ℚ :=
  let cpuCost := pricing.CalculateCPUCost (node.Capacity.cpu.getD 0)
  let memCost := pricing.CalculateMemoryCost (node.Capacity.memory.getD 0)
  let gpuCost := pricing.CalculateGPUCost (node.Capacity.gpu.getD 0)
  cpuCost + memCost + gpuCost

/-! ## pkg/gpu/analyzer.go -/

/-- NodeGPU represents GPU information for a node. -/
structure NodeGPU where
  NodeName : String
  TotalGPUs : ℤ
  AllocatedGPUs : ℤ
  AvailableGPUs : ℤ
  GPUType : String
deriving DecidableEq, Repr

/-- PodGPU represents GPU usage for a pod. -/
structure PodGPU where
  PodName : String
  Namespace : String
  Node : String
  GPUCount : ℤ
deriving DecidableEq, Repr

/-- Analysis contains GPU usage analysis. -/
structure Analysis where
  Nodes : List NodeGPU
  Pods : List PodGPU
  TotalGPUs : ℤ
  AllocatedGPUs : ℤ
  AvailableGPUs : ℤ
  UtilizationPct : ℚ
  Recommendations : List String
deriving DecidableEq, Repr

/-- analyzeNode derives per-node GPU accounting: total GPUs from capacity;
when the allocatable entry is present, available GPUs from it and allocated
as `total - available` (both stay `0` otherwise); the GPU type from the
`nvidia.com/gpu.product` label, else the `accelerator` label, else
`Unknown`. -/
def analyzeNode (node : Node) : NodeGPU :=
  let total :=
    match node.Capacity.gpu with
    | some g => g
    | none => 0
  let availAlloc :=
    match node.Allocatable.gpu with
    | some g => (g, total - g)
    | none => ((0 : ℤ), (0 : ℤ))
  let gpuType :=
    match node.labelGpuProduct with
    | some t => t
    | none =>
      match node.labelAccelerator with
      | some t => t
      | none => "Unknown"
  { NodeName := node.Name
    TotalGPUs := total
    AllocatedGPUs := availAlloc.2
    AvailableGPUs := availAlloc.1
    GPUType := gpuType }

/-- analyzePod counts GPUs across all containers of a pod, adding the
`nvidia.com/gpu` entry of BOTH the requests map and the limits map.  This
is the GPU analyzer's own extraction loop, implemented independently of
`calculatePodCost`. -/
def analyzePod (pod : Pod) : PodGPU :=
  { PodName := pod.Name
    Namespace := pod.Namespace
    Node := pod.NodeName
    GPUCount := (pod.Containers.map (fun c => c.Requests.gpu.getD 0 + c.Limits.gpu.getD 0)).sum }

/-- generateRecommendations emits the free-text recommendation strings from
the fixed threshold rules, in their fixed order. -/
def generateRecommendations (analysis : Analysis) : List String :=
  let lowUtil :=
    if analysis.TotalGPUs > 0 ∧ analysis.UtilizationPct < 50 then
      ["GPU utilization is below 50%. Consider scaling down GPU nodes or consolidating workloads."]
    else []
  let highUtil :=
    if analysis.UtilizationPct > 85 then
      ["GPU utilization is above 85%. Consider adding more GPU nodes to prevent scheduling issues."]
    else []
  let fragmentedNodes :=
    (analysis.Nodes.filter (fun n => n.AllocatedGPUs > 0 ∧ n.AvailableGPUs > 0)).length
  let fragmented :=
    if fragmentedNodes > analysis.Nodes.length / 2 then
      ["Many nodes have partially allocated GPUs. Consider using node affinity to pack GPU workloads efficiently."]
    else []
  let noGpus :=
    if analysis.TotalGPUs = 0 then
      ["No GPU resources detected. If you have ML/AI workloads, consider adding GPU nodes for better performance."]
    else []
  let singleGPUPods := (analysis.Pods.filter (fun p => p.GPUCount = 1)).length
  let sharing :=
    if singleGPUPods > 2 then
      ["Multiple pods requesting single GPUs. Consider MIG (Multi-Instance GPU) or time-slicing for better utilization."]
    else []
  lowUtil ++ highUtil ++ fragmented ++ noGpus ++ sharing

/-- Analyze performs GPU analysis on nodes and pods.  Nodes contribute to
the report and to the cluster totals only when their `TotalGPUs` is
positive; pods are retained only when their GPU count is positive.
`UtilizationPct` is computed as `Allocated/Total*100` guarded by
`TotalGPUs > 0` and stays `0` otherwise. -/
def Analyze (nodes : List Node) (pods : List Pod) : Analysis :=
  let nodeGPUs := (nodes.map analyzeNode).filter (fun n => n.TotalGPUs > 0)
  let totalGPUs := (nodeGPUs.map NodeGPU.TotalGPUs).sum
  let allocatedGPUs := (nodeGPUs.map NodeGPU.AllocatedGPUs).sum
  let podGPUs := (pods.map analyzePod).filter (fun p => p.GPUCount > 0)
  let utilizationPct :=
    if totalGPUs > 0 then ((allocatedGPUs : ℚ) / (totalGPUs : ℚ)) * 100 else 0
  let base : Analysis :=
    { Nodes := nodeGPUs
      Pods := podGPUs
      TotalGPUs := totalGPUs
      AllocatedGPUs := allocatedGPUs
      AvailableGPUs := totalGPUs - allocatedGPUs
      UtilizationPct := utilizationPct
      Recommendations := [] }
  { base with Recommendations := generateRecommendations base }

/-! ## pkg/optimize/recommendations.go -/

/-- Recommendation represents a cost optimization recommendation. -/
structure Recommendation where
  Title : String
  Description : String
  Savings : ℚ
  Priority : String
  Category : String
deriving DecidableEq, Repr

/-- Container test of `findOverProvisionedPods`: requests for CPU and
memory are read with a zero default; containers with a zero CPU request or
a zero memory request are skipped; otherwise the container qualifies when
the CPU request exceeds `4.0` cores or the memory request exceeds
`16*1024*1024*1024` bytes. -/
def overProvisionedContainer (c : Container) : Bool :=
  let cpuReq := c.Requests.cpu.getD 0
  let memReq := c.Requests.memory.getD 0
  if cpuReq = 0 ∨ memReq = 0 then false
  else decide (cpuReq > 4.0 ∨ memReq > 16 * 1024 * 1024 * 1024)

/-- Recommendations contributed by the pod at input index `i` in
`findOverProvisionedPods`: non-Running pods are skipped; each qualifying
container emits one recommendation, provided `i < len(costs)`, whose
savings are `costs[i].TotalCost * 0.3` — a positional lookup into the cost
slice. -/
def overProvisionedRecsAt (costs : List PodCost) (i : ℕ) (pod : Pod) :
    List Recommendation :=
  if pod.Phase == "Running" then
    (pod.Containers.filter overProvisionedContainer).filterMap (fun _ =>
      if h : i < costs.length then
        some
          { Title := "Rightsize over-provisioned pod: " ++ pod.Name
            Description := "This pod requests significant resources. Consider rightsizing based on actual usage metrics."
            Savings := (costs.get ⟨i, h⟩).TotalCost * 0.3
            Priority := "High"
            Category := "Rightsizing" }
      else none)
  else []

/-- Indexed loop of `findOverProvisionedPods`, boiled down to recursion
over the pod list with the running index made explicit. -/
def overRecsFrom (costs : List PodCost) : ℕ → List Pod → List Recommendation
  | _, [] => []
  | i, pod :: rest => overProvisionedRecsAt costs i pod ++ overRecsFrom costs (i + 1) rest

/-- findOverProvisionedPods checks every pod by input index against the
over-provisioning thresholds. -/
def findOverProvisionedPods (pods : List Pod) (costs : List PodCost) :
    List Recommendation :=
  overRecsFrom costs 0 pods

/-- estimateNodeCost is the optimizer's own node cost estimate: CPU plus
memory capacity cost — it does NOT add a GPU term. -/
def estimateNodeCost (pricing : Pricing) (node : Node) : ℚ :=
  let cpuCost := pricing.CalculateCPUCost (node.Capacity.cpu.getD 0)
  let memCost := pricing.CalculateMemoryCost (node.Capacity.memory.getD 0)
  cpuCost + memCost

/-- Per-node test and emission of `findUnusedResources`: when the
allocatable CPU exceeds `0.8` times the capacity CPU, emit a Medium
priority Unused recommendation with savings `estimateNodeCost * 0.5`. -/
def unusedNodeRec (pricing : Pricing) (node : Node) : Option Recommendation :=
  let cpuAllocatable := node.Allocatable.cpu.getD 0
  let cpuCapacity := node.Capacity.cpu.getD 0
  if cpuAllocatable > cpuCapacity * 0.8 then
    some
      { Title := "Consider downsizing or removing underutilized node: " ++ node.Name
        Description := "This node appears to have low resource allocation. Review if it can be consolidated or removed."
        Savings := estimateNodeCost pricing node * 0.5
        Priority := "Medium"
        Category := "Unused" }
  else none

/-- findUnusedResources checks every node for low CPU allocation. -/
def findUnusedResources (pricing : Pricing) (nodes : List Node) :
    List Recommendation :=
  nodes.filterMap (unusedNodeRec pricing)

/-- GPU count used by `findExpensiveGPUUsage`: the `nvidia.com/gpu` entry
of the REQUESTS map only, summed across containers — limits are not
consulted here. -/
def podRequestGpuCount (pod : Pod) : ℤ :=
  (pod.Containers.map (fun c => c.Requests.gpu.getD 0)).sum

/-- Per-pod test and emission of `findExpensiveGPUUsage` for the pod at
input index `i`: non-Running pods are skipped; a recommendation is emitted
when the request-side GPU count is positive, `i < len(costs)`, and
`costs[i].GPUCost > costs[i].TotalCost * 0.7`, with savings
`costs[i].GPUCost * 0.5`. -/
def expensiveGpuRecAt (costs : List PodCost) (i : ℕ) (pod : Pod) :
    Option Recommendation :=
  if pod.Phase == "Running" then
    if podRequestGpuCount pod > 0 then
      if h : i < costs.length then
        if (costs.get ⟨i, h⟩).GPUCost > (costs.get ⟨i, h⟩).TotalCost * 0.7 then
          some
            { Title := "Review GPU usage for pod: " ++ pod.Name
              Description := "This pod uses GPUs which account for most of its cost. Ensure GPU is being utilized efficiently or consider spot instances."
              Savings := (costs.get ⟨i, h⟩).GPUCost * 0.5
              Priority := "High"
              Category := "GPU" }
        else none
      else none
    else none
  else none

/-- Indexed loop of `findExpensiveGPUUsage`, boiled down to recursion over
the pod list with the running index made explicit. -/
def gpuRecsFrom (costs : List PodCost) : ℕ → List Pod → List Recommendation
  | _, [] => []
  | i, pod :: rest => (expensiveGpuRecAt costs i pod).toList ++ gpuRecsFrom costs (i + 1) rest

/-- findExpensiveGPUUsage checks every pod by input index for GPU-dominated
cost. -/
def findExpensiveGPUUsage (pods : List Pod) (costs : List PodCost) :
    List Recommendation :=
  gpuRecsFrom costs 0 pods

/-! ## Stability predicate for the ordering claim -/

/-- Stable tie-break: for every `TotalCost` value, the entries of the
output carrying that value appear in the same relative order as in the
pre-sort sequence `inOrder`. -/
def TiesInInputOrder (inOrder out : List PodCost) : Prop :=
  ∀ t : ℚ, out.filter (fun pc => decide (pc.TotalCost = t)) =
    inOrder.filter (fun pc => decide (pc.TotalCost = t))

/-! ## Concrete sample data used by witnesses and counterexamples -/

/-- Running pod with 1 CPU core and 2 GiB memory requested. -/
def wPodRun : Pod :=
  ⟨"web", "default", "node-1", "Running",
    [⟨⟨some 1, some (2 * 1024 * 1024 * 1024), none⟩, ResourceList.empty⟩]⟩

/-- Pending pod with 1.0 CPU core requested (the excluded-workload example). -/
def wPodPending : Pod :=
  ⟨"queued", "default", "", "Pending", [⟨⟨some 1, none, none⟩, ResourceList.empty⟩]⟩

/-- Second Running pod, 2 CPU cores requested. -/
def wPodRun2 : Pod :=
  ⟨"api", "default", "node-1", "Running", [⟨⟨some 2, none, none⟩, ResourceList.empty⟩]⟩

/-- Running pod with the larger CPU request, for the sortedness witness. -/
def wPodBig : Pod :=
  ⟨"big", "default", "node-1", "Running", [⟨⟨some 2, none, none⟩, ResourceList.empty⟩]⟩

/-- Running pod with the smaller CPU request, for the sortedness witness. -/
def wPodSmall : Pod :=
  ⟨"small", "default", "node-1", "Running", [⟨⟨some 1, none, none⟩, ResourceList.empty⟩]⟩

/-- First of two Running pods with identical resource requests (equal
`TotalCost`), input order: `tiePodA` before `tiePodB`. -/
def tiePodA : Pod :=
  ⟨"tie-a", "default", "node-1", "Running", [⟨⟨some 1, none, none⟩, ResourceList.empty⟩]⟩

/-- Second of the two equal-cost Running pods. -/
def tiePodB : Pod :=
  ⟨"tie-b", "default", "node-1", "Running", [⟨⟨some 1, none, none⟩, ResourceList.empty⟩]⟩

/-- Node with a GPU in its capacity whose allocatable CPU equals its
capacity CPU, so the underutilized-node rule fires. -/
def ceGpuNode : Node :=
  ⟨"gpu-node", ⟨some 4, none, some 1⟩, ⟨some 4, none, some 1⟩, none, none⟩

/-- GPU-free node whose allocatable CPU equals its capacity CPU. -/
def wCpuNode : Node :=
  ⟨"cpu-node", ⟨some 8, some (16 * 1024 * 1024 * 1024), none⟩,
    ⟨some 8, some (16 * 1024 * 1024 * 1024), none⟩, none, none⟩

/-- Node with 8 GPUs in capacity and 2 allocatable (6 allocated). -/
def gNodeEx : Node :=
  ⟨"gpu-a", ⟨some 32, none, some 8⟩, ⟨some 32, none, some 2⟩, some "Tesla-T4", none⟩

/-- Running workload with a 5.0-core CPU request (and a non-zero memory
request), the over-provisioning example. -/
def pod5 : Pod :=
  ⟨"train", "default", "node-1", "Running",
    [⟨⟨some 5, some (1024 * 1024 * 1024), none⟩, ResourceList.empty⟩]⟩

/-- Cost entry with `TotalCost` exactly `$100`. -/
def entry100 : PodCost :=
  ⟨"train", "default", "node-1", 0, 0, 0, 0, 100, 5, 1024 * 1024 * 1024, 0, 0⟩

/-- Pending pod placed before the over-provisioned pod in the input,
shifting the input index past the end of the filtered cost sequence. -/
def cePending : Pod := ⟨"idle", "default", "", "Pending", []⟩

/-- Running pod with a 5.0-core CPU request and 1 GiB memory request. -/
def ceBig : Pod :=
  ⟨"big-train", "default", "node-1", "Running",
    [⟨⟨some 5, some (1024 * 1024 * 1024), none⟩, ResourceList.empty⟩]⟩

/-- Running workload that declares one `nvidia.com/gpu` unit exclusively in
its container limits — its request maps carry no GPU key at all. -/
def wGpuLim : Pod :=
  ⟨"ml", "default", "gpu-node", "Running",
    [⟨ResourceList.empty, ⟨none, none, some 1⟩⟩]⟩

/-! ## Helper lemmas -/

/-- Membership in the pre-sort cost sequence comes exactly from the Running
pods of the input. -/
theorem mem_runningPodCosts {pricing : Pricing} {pods : List Pod} {pc : PodCost} :
    pc ∈ runningPodCosts pricing pods ↔
      ∃ pod ∈ pods, pod.Phase = "Running" ∧ pc = calculatePodCost pricing pod := by
  simp only [runningPodCosts, List.mem_map, List.mem_filter, beq_iff_eq]
  constructor
  · rintro ⟨pod, ⟨hmem, hrun⟩, rfl⟩
    exact ⟨pod, hmem, hrun, rfl⟩
  · rintro ⟨pod, hmem, hrun, rfl⟩
    exact ⟨pod, ⟨hmem, hrun⟩, rfl⟩

/-- The projections of `Analyze` used by the utilization claim, spelled
out. -/
theorem Analyze_proj (nodes : List Node) (pods : List Pod) :
    (Analyze nodes pods).TotalGPUs =
        ((((nodes.map analyzeNode).filter (fun n => n.TotalGPUs > 0)).map NodeGPU.TotalGPUs)).sum ∧
      (Analyze nodes pods).AllocatedGPUs =
        ((((nodes.map analyzeNode).filter (fun n => n.TotalGPUs > 0)).map NodeGPU.AllocatedGPUs)).sum ∧
      (Analyze nodes pods).UtilizationPct =
        (if (Analyze nodes pods).TotalGPUs > 0 then
          ((Analyze nodes pods).AllocatedGPUs : ℚ) / ((Analyze nodes pods).TotalGPUs : ℚ) * 100
        else 0) :=
  ⟨rfl, rfl, rfl⟩

/-! ## Claims -/

/-- C5: For every pod, the GPU unit count extracted by the Cost Calculator
(sum of the `nvidia.com/gpu` resource over every container's requests plus
limits) equals the `GPUCount` extracted by the GPU Allocation Analyzer's
`analyzePod` for the same pod: the two independently implemented
extraction paths are numerically identical. -/
theorem C5_gpu_extraction_consistent (pricing : Pricing) (pod : Pod) :
    (calculatePodCost pricing pod).GPUCount = (analyzePod pod).GPUCount :=
  rfl

/-- C7: Every Pricing Model conversion (CPU, memory, GPU, storage) returns
0 on input 0 and is linear in its input quantity (scaling the input by `k`
scales the output by `k`); in particular `CalculateCPUCost cores` equals
`cores` times the CPU hourly rate times the fixed constant 730. -/
theorem C7_pricing_linearity :
    (∀ p : Pricing, p.CalculateCPUCost 0 = 0 ∧ p.CalculateMemoryCost 0 = 0 ∧
      p.CalculateGPUCost 0 = 0 ∧ p.CalculateStorageCost 0 = 0) ∧
    (∀ (p : Pricing) (k x : ℚ), p.CalculateCPUCost (k * x) = k * p.CalculateCPUCost x) ∧
    (∀ (p : Pricing) (k x : ℤ),
      p.CalculateMemoryCost (k * x) = (k : ℚ) * p.CalculateMemoryCost x) ∧
    (∀ (p : Pricing) (k x : ℤ),
      p.CalculateGPUCost (k * x) = (k : ℚ) * p.CalculateGPUCost x) ∧
    (∀ (p : Pricing) (k x : ℤ),
      p.CalculateStorageCost (k * x) = (k : ℚ) * p.CalculateStorageCost x) ∧
    (∀ (p : Pricing) (cores : ℚ),
      p.CalculateCPUCost cores = cores * p.CPUHourlyCost * 730) := by
  refine ⟨fun p => ⟨?_, ?_, ?_, ?_⟩, fun p k x => ?_, fun p k x => ?_, fun p k x => ?_,
      fun p k x => ?_, fun p cores => ?_⟩ <;>
    simp only [Pricing.CalculateCPUCost, Pricing.CalculateMemoryCost,
      Pricing.CalculateGPUCost, Pricing.CalculateStorageCost, hoursPerMonth] <;>
    push_cast <;>
    norm_num <;>
    ring

/-- C9: The result of `CalculatePodCosts` does not depend on its `nodes`
argument — for every pod sequence and any two node sequences, the possible
results coincide (the `nodes` parameter is never read). -/
theorem C9_nodes_unread (pricing : Pricing) (pods : List Pod)
    (nodes1 nodes2 : List Node) (out : List PodCost) :
    CalculatePodCosts pricing pods nodes1 out ↔
      CalculatePodCosts pricing pods nodes2 out :=
  Iff.rfl

/-- C6: In every analysis returned by `Analyze`, `UtilizationPct` equals
`AllocatedGPUs / TotalGPUs * 100` when `TotalGPUs > 0` and equals `0` when
`TotalGPUs = 0`; the division is guarded, so it is never taken with a zero
denominator. -/
theorem C6_utilization_guard (nodes : List Node) (pods : List Pod) :
    ((Analyze nodes pods).TotalGPUs > 0 →
      (Analyze nodes pods).UtilizationPct =
        ((Analyze nodes pods).AllocatedGPUs : ℚ) / ((Analyze nodes pods).TotalGPUs : ℚ) * 100) ∧
    ((Analyze nodes pods).TotalGPUs = 0 → (Analyze nodes pods).UtilizationPct = 0) := by
  obtain ⟨-, -, hu⟩ := Analyze_proj nodes pods
  constructor
  · intro h
    rw [hu, if_pos h]
  · intro h
    rw [hu, if_neg (by omega)]

/-- Witness for C6 at concrete inputs: a cluster with one 8-GPU node of
which 6 are allocated (utilization 75), and the empty cluster. -/
theorem C6_utilization_guard_w :
    (Analyze [gNodeEx] []).UtilizationPct =
        ((Analyze [gNodeEx] []).AllocatedGPUs : ℚ) / ((Analyze [gNodeEx] []).TotalGPUs : ℚ) * 100 ∧
      (Analyze [] []).UtilizationPct = 0 :=
  ⟨(C6_utilization_guard [gNodeEx] []).1 (by decide),
    (C6_utilization_guard [] []).2 (by decide)⟩

/-- C1: Every entry of a `CalculatePodCosts` result satisfies
`TotalCost = CPUCost + MemoryCost + GPUCost` exactly, and each component
is the Pricing Model conversion of the pod's billable quantity. -/
theorem C1_total_cost_breakdown (pricing : Pricing) (pods : List Pod)
    (nodes : List Node) (out : List PodCost)
    (h : CalculatePodCosts pricing pods nodes out)
    (pc : PodCost) (hpc : pc ∈ out) :
    pc.TotalCost = pc.CPUCost + pc.MemoryCost + pc.GPUCost ∧
    ∃ pod ∈ pods, pod.Phase = "Running" ∧ pc = calculatePodCost pricing pod ∧
      pc.CPUCost = pricing.CalculateCPUCost (billableCpu pod) ∧
      pc.MemoryCost = pricing.CalculateMemoryCost (billableMem pod) ∧
      pc.GPUCost = pricing.CalculateGPUCost (podGpuCount pod) := by
  have hmem : pc ∈ runningPodCosts pricing pods := h.1.subset hpc
  obtain ⟨pod, hpods, hrun, rfl⟩ := mem_runningPodCosts.mp hmem
  exact ⟨rfl, pod, hpods, hrun, rfl, rfl, rfl, rfl⟩

/-- Witness for C1 at a concrete input: one Running pod with 1 CPU core
and 2 GiB of memory requested. -/
theorem C1_total_cost_breakdown_w :
    (calculatePodCost DefaultPricing wPodRun).TotalCost =
        (calculatePodCost DefaultPricing wPodRun).CPUCost +
          (calculatePodCost DefaultPricing wPodRun).MemoryCost +
          (calculatePodCost DefaultPricing wPodRun).GPUCost ∧
      ∃ pod ∈ [wPodRun], pod.Phase = "Running" ∧
        calculatePodCost DefaultPricing wPodRun = calculatePodCost DefaultPricing pod ∧
        (calculatePodCost DefaultPricing wPodRun).CPUCost =
          DefaultPricing.CalculateCPUCost (billableCpu pod) ∧
        (calculatePodCost DefaultPricing wPodRun).MemoryCost =
          DefaultPricing.CalculateMemoryCost (billableMem pod) ∧
        (calculatePodCost DefaultPricing wPodRun).GPUCost =
          DefaultPricing.CalculateGPUCost (podGpuCount pod) :=
  C1_total_cost_breakdown DefaultPricing [wPodRun] [] [calculatePodCost DefaultPricing wPodRun]
    ⟨List.Perm.refl _, by simp [SortedByTotalCostDesc]⟩
    (calculatePodCost DefaultPricing wPodRun) (List.mem_singleton_self _)

/-- C8: A `CalculatePodCosts` result contains exactly the cost entries of
the Running pods: every entry comes from a pod whose phase is `Running`,
and every Running pod contributes its entry; pods of any other phase are
excluded. -/
theorem C8_running_filter (pricing : Pricing) (pods : List Pod)
    (nodes : List Node) (out : List PodCost)
    (h : CalculatePodCosts pricing pods nodes out) :
    (∀ pc ∈ out, ∃ pod ∈ pods, pod.Phase = "Running" ∧
      pc = calculatePodCost pricing pod) ∧
    (∀ pod ∈ pods, pod.Phase = "Running" → calculatePodCost pricing pod ∈ out) := by
  constructor
  · intro pc hpc
    exact mem_runningPodCosts.mp (h.1.subset hpc)
  · intro pod hmem hrun
    exact h.1.mem_iff.mpr (mem_runningPodCosts.mpr ⟨pod, hmem, hrun, rfl⟩)

/-- Witness for C8 at a concrete input: a Pending pod with a 1.0-core CPU
request together with a Running pod; the result holds only the Running
pod's entry. -/
theorem C8_running_filter_w :
    (∀ pc ∈ [calculatePodCost DefaultPricing wPodRun2],
      ∃ pod ∈ [wPodPending, wPodRun2], pod.Phase = "Running" ∧
        pc = calculatePodCost DefaultPricing pod) ∧
    (∀ pod ∈ [wPodPending, wPodRun2], pod.Phase = "Running" →
      calculatePodCost DefaultPricing pod ∈ [calculatePodCost DefaultPricing wPodRun2]) :=
  C8_running_filter DefaultPricing [wPodPending, wPodRun2] []
    [calculatePodCost DefaultPricing wPodRun2]
    ⟨List.Perm.refl _, by simp [SortedByTotalCostDesc]⟩

/-- C4 (amended): every `CalculatePodCosts` result is sorted descending by
`TotalCost` over all index pairs; the relative order of entries with equal
`TotalCost` is NOT specified, because the `sort.Slice` call is not a
stable sort. -/
theorem C4_sorted_desc (pricing : Pricing) (pods : List Pod)
    (nodes : List Node) (out : List PodCost)
    (h : CalculatePodCosts pricing pods nodes out)
    (i j : ℕ) (hi : i < out.length) (hj : j < out.length) (hij : i < j) :
    (out.get ⟨j, hj⟩).TotalCost ≤ (out.get ⟨i, hi⟩).TotalCost :=
  List.pairwise_iff_get.mp h.2 ⟨i, hi⟩ ⟨j, hj⟩ hij

/-- Witness for C4 at a concrete input: two Running pods with distinct
costs, result in descending order. -/
theorem C4_sorted_desc_w :
    (([calculatePodCost DefaultPricing wPodBig,
        calculatePodCost DefaultPricing wPodSmall].get ⟨1, by norm_num⟩).TotalCost ≤
      ([calculatePodCost DefaultPricing wPodBig,
        calculatePodCost DefaultPricing wPodSmall].get ⟨0, by norm_num⟩).TotalCost) :=
  C4_sorted_desc DefaultPricing [wPodBig, wPodSmall] []
    [calculatePodCost DefaultPricing wPodBig, calculatePodCost DefaultPricing wPodSmall]
    ⟨List.Perm.refl _, by
      constructor
      · intro b hb
        simp only [List.mem_singleton] at hb
        subst hb
        norm_num [calculatePodCost, billableCpu, billableMem, podCpuRequest, podMemRequest,
          podCpuLimit, podMemLimit, podGpuCount, wPodBig, wPodSmall, DefaultPricing,
          Pricing.CalculateCPUCost, Pricing.CalculateMemoryCost, Pricing.CalculateGPUCost,
          hoursPerMonth, ResourceList.empty]
      · simp⟩
    0 1 (by norm_num) (by norm_num) (by norm_num)

/-- C4 counterexample: for two distinct Running pods with equal
`TotalCost`, listed in the input in the order `tiePodA`, `tiePodB`, the
output `[tieB, tieA]` also satisfies the contract of `CalculatePodCosts`
(permutation of the running costs, sorted descending), yet it lists the
two equal-cost entries in the opposite order to the input — so the
claimed stable tie-break does not hold. -/
theorem C4_unstable_tie_counterexample :
    ∃ out : List PodCost,
      CalculatePodCosts DefaultPricing [tiePodA, tiePodB] [] out ∧
      runningPodCosts DefaultPricing [tiePodA, tiePodB] =
        [calculatePodCost DefaultPricing tiePodA, calculatePodCost DefaultPricing tiePodB] ∧
      out = [calculatePodCost DefaultPricing tiePodB, calculatePodCost DefaultPricing tiePodA] ∧
      (calculatePodCost DefaultPricing tiePodA).TotalCost =
        (calculatePodCost DefaultPricing tiePodB).TotalCost ∧
      calculatePodCost DefaultPricing tiePodA ≠ calculatePodCost DefaultPricing tiePodB ∧
      ¬ TiesInInputOrder (runningPodCosts DefaultPricing [tiePodA, tiePodB])
        [calculatePodCost DefaultPricing tiePodB, calculatePodCost DefaultPricing tiePodA] := by
  have htot : (calculatePodCost DefaultPricing tiePodA).TotalCost =
      (calculatePodCost DefaultPricing tiePodB).TotalCost := by
    norm_num [calculatePodCost, billableCpu, billableMem, podCpuRequest, podMemRequest,
      podCpuLimit, podMemLimit, podGpuCount, tiePodA, tiePodB, DefaultPricing,
      Pricing.CalculateCPUCost, Pricing.CalculateMemoryCost, Pricing.CalculateGPUCost,
      hoursPerMonth, ResourceList.empty]
  have hne : calculatePodCost DefaultPricing tiePodA ≠ calculatePodCost DefaultPricing tiePodB := by
    intro hcontra
    have := congrArg PodCost.Name hcontra
    simp [calculatePodCost, tiePodA, tiePodB] at this
  refine ⟨[calculatePodCost DefaultPricing tiePodB, calculatePodCost DefaultPricing tiePodA],
    ⟨List.Perm.swap _ _ _, ?_⟩, rfl, rfl, htot, hne, ?_⟩
  · constructor
    · intro b hb
      simp only [List.mem_singleton] at hb
      subst hb
      exact le_of_eq htot
    · simp
  · intro hstable
    have hfa := hstable (calculatePodCost DefaultPricing tiePodA).TotalCost
    rw [show runningPodCosts DefaultPricing [tiePodA, tiePodB] =
      [calculatePodCost DefaultPricing tiePodA, calculatePodCost DefaultPricing tiePodB] from rfl]
      at hfa
    have hdB : decide ((calculatePodCost DefaultPricing tiePodB).TotalCost =
        (calculatePodCost DefaultPricing tiePodA).TotalCost) = true := decide_eq_true htot.symm
    have hdA : decide ((calculatePodCost DefaultPricing tiePodA).TotalCost =
        (calculatePodCost DefaultPricing tiePodA).TotalCost) = true := decide_eq_true rfl
    simp only [List.filter_cons, List.filter_nil, hdB, hdA, if_true] at hfa
    injection hfa with h1 h2
    exact hne h1.symm

/-- C2 (amended): for every node whose allocatable CPU exceeds 80% of its
capacity CPU, `findUnusedResources` emits a Medium-priority Unused
recommendation whose savings equal 50% of the optimizer's own node cost
estimate, which is the CPU-plus-memory capacity cost WITHOUT any GPU term
(it is not the Cost Calculator's `CalculateNodeCost`). -/
theorem C2_unused_node_savings (pricing : Pricing) (nodes : List Node) (node : Node)
    (hmem : node ∈ nodes)
    (hcond : node.Allocatable.cpu.getD 0 > node.Capacity.cpu.getD 0 * 0.8) :
    ∃ rec ∈ findUnusedResources pricing nodes,
      rec.Priority = "Medium" ∧ rec.Category = "Unused" ∧
      rec.Savings = estimateNodeCost pricing node * 0.5 ∧
      rec.Title = "Consider downsizing or removing underutilized node: " ++ node.Name ∧
      estimateNodeCost pricing node =
        pricing.CalculateCPUCost (node.Capacity.cpu.getD 0) +
          pricing.CalculateMemoryCost (node.Capacity.memory.getD 0) := by
  refine ⟨{ Title := "Consider downsizing or removing underutilized node: " ++ node.Name
            Description := "This node appears to have low resource allocation. Review if it can be consolidated or removed."
            Savings := estimateNodeCost pricing node * 0.5
            Priority := "Medium"
            Category := "Unused" },
    List.mem_filterMap.mpr ⟨node, hmem, ?_⟩, rfl, rfl, rfl, rfl, rfl⟩
  simp only [unusedNodeRec]
  rw [if_pos hcond]

/-- Witness for C2 (amended) at a concrete input: a GPU-free node with
8 allocatable of 8 capacity CPU cores. -/
theorem C2_unused_node_savings_w :
    ∃ rec ∈ findUnusedResources DefaultPricing [wCpuNode],
      rec.Priority = "Medium" ∧ rec.Category = "Unused" ∧
      rec.Savings = estimateNodeCost DefaultPricing wCpuNode * 0.5 ∧
      rec.Title = "Consider downsizing or removing underutilized node: " ++ wCpuNode.Name ∧
      estimateNodeCost DefaultPricing wCpuNode =
        DefaultPricing.CalculateCPUCost (wCpuNode.Capacity.cpu.getD 0) +
          DefaultPricing.CalculateMemoryCost (wCpuNode.Capacity.memory.getD 0) :=
  C2_unused_node_savings DefaultPricing [wCpuNode] wCpuNode (List.mem_singleton_self _)
    (by norm_num [wCpuNode])

/-- C2 counterexample: `ceGpuNode` has one GPU in its capacity and passes
the low-allocation test.  The single recommendation emitted for it carries
savings `$35.04` — half of the CPU+memory-only estimate — while half of
the Cost Calculator's `CalculateNodeCost`, which includes the GPU, is
`$363.54`.  The claimed equality with 50% of `CalculateNodeCost` is
therefore false. -/
theorem C2_unused_node_counterexample :
    ceGpuNode.Allocatable.cpu.getD 0 > ceGpuNode.Capacity.cpu.getD 0 * 0.8 ∧
    (findUnusedResources DefaultPricing [ceGpuNode]).map Recommendation.Category = ["Unused"] ∧
    (findUnusedResources DefaultPricing [ceGpuNode]).map Recommendation.Savings = [35.04] ∧
    CalculateNodeCost DefaultPricing ceGpuNode * 0.5 = 363.54 ∧
    (35.04 : ℚ) ≠ 363.54 := by
  have hcond : ceGpuNode.Allocatable.cpu.getD 0 > ceGpuNode.Capacity.cpu.getD 0 * 0.8 := by
    norm_num [ceGpuNode]
  have heval : findUnusedResources DefaultPricing [ceGpuNode] =
      [{ Title := "Consider downsizing or removing underutilized node: " ++ ceGpuNode.Name
         Description := "This node appears to have low resource allocation. Review if it can be consolidated or removed."
         Savings := estimateNodeCost DefaultPricing ceGpuNode * 0.5
         Priority := "Medium"
         Category := "Unused" }] := by
    simp only [findUnusedResources, List.filterMap_cons, List.filterMap_nil, unusedNodeRec]
    rw [if_pos hcond]
  refine ⟨hcond, by rw [heval]; rfl, ?_, ?_, by norm_num⟩
  · rw [heval]
    norm_num [estimateNodeCost, ceGpuNode, DefaultPricing, Pricing.CalculateCPUCost,
      Pricing.CalculateMemoryCost, hoursPerMonth]
  · norm_num [CalculateNodeCost, ceGpuNode, DefaultPricing, Pricing.CalculateCPUCost,
      Pricing.CalculateMemoryCost, Pricing.CalculateGPUCost, hoursPerMonth]

/-- Every recommendation contributed at offset `i` into a pod list is in
the result of the indexed over-provisioning loop started at `start`. -/
theorem overRecsFrom_mem_of (costs : List PodCost) (pods : List Pod) (start i : ℕ)
    (hi : i < pods.length) (rec : Recommendation)
    (hrec : rec ∈ overProvisionedRecsAt costs (start + i) (pods.get ⟨i, hi⟩)) :
    rec ∈ overRecsFrom costs start pods := by
  induction pods generalizing start i with
  | nil => exact absurd hi (by simp)
  | cons pod rest ih =>
    cases i with
    | zero =>
      exact List.mem_append_left _ (by simpa using hrec)
    | succ n =>
      have hn : n < rest.length := Nat.lt_of_succ_lt_succ hi
      refine List.mem_append_right _ (ih (start + 1) n hn ?_)
      have heq : start + (n + 1) = start + 1 + n := by omega
      rw [heq] at hrec
      exact hrec

/-- C3 (amended): when the Running pod at input index `i` has a container
with non-zero CPU and memory requests exceeding the 4-core / 16 GiB
thresholds AND `i` is within the bounds of the cost sequence, a
High-priority Rightsizing recommendation is emitted whose savings are
`costs[i].TotalCost * 0.3` — a positional lookup that matches that
workload's own cost only when the cost sequence is aligned with the pod
input order.  For a single Running workload with its single cost entry the
result is exactly one such recommendation. -/
theorem C3_rightsizing_positional :
    (∀ (pods : List Pod) (costs : List PodCost) (i : ℕ) (hi : i < pods.length)
      (c : Container), (pods.get ⟨i, hi⟩).Phase = "Running" →
      c ∈ (pods.get ⟨i, hi⟩).Containers → overProvisionedContainer c = true →
      ∀ hc : i < costs.length,
      ∃ rec ∈ findOverProvisionedPods pods costs,
        rec.Priority = "High" ∧ rec.Category = "Rightsizing" ∧
        rec.Savings = (costs.get ⟨i, hc⟩).TotalCost * 0.3 ∧
        rec.Title = "Rightsize over-provisioned pod: " ++ (pods.get ⟨i, hi⟩).Name) ∧
    (∀ (pod : Pod) (entry : PodCost), pod.Phase = "Running" →
      (pod.Containers.filter overProvisionedContainer).length = 1 →
      findOverProvisionedPods [pod] [entry] =
        [{ Title := "Rightsize over-provisioned pod: " ++ pod.Name
           Description := "This pod requests significant resources. Consider rightsizing based on actual usage metrics."
           Savings := entry.TotalCost * 0.3
           Priority := "High"
           Category := "Rightsizing" }]) := by
  constructor
  · intro pods costs i hi c hrun hcmem hover hc
    refine ⟨{ Title := "Rightsize over-provisioned pod: " ++ (pods.get ⟨i, hi⟩).Name
              Description := "This pod requests significant resources. Consider rightsizing based on actual usage metrics."
              Savings := (costs.get ⟨i, hc⟩).TotalCost * 0.3
              Priority := "High"
              Category := "Rightsizing" }, ?_, rfl, rfl, rfl, rfl⟩
    refine overRecsFrom_mem_of costs pods 0 i hi _ ?_
    rw [Nat.zero_add]
    unfold overProvisionedRecsAt
    rw [if_pos (beq_iff_eq.mpr hrun)]
    refine List.mem_filterMap.mpr ⟨c, List.mem_filter.mpr ⟨hcmem, hover⟩, ?_⟩
    rw [dif_pos hc]
  · intro pod entry hrun hlen
    obtain ⟨c, hc⟩ := List.length_eq_one.mp hlen
    show overProvisionedRecsAt [entry] 0 pod ++ overRecsFrom [entry] 1 [] = _
    unfold overRecsFrom overProvisionedRecsAt
    rw [if_pos (beq_iff_eq.mpr hrun), hc]
    simp

/-- Witness for C3 (amended) at a concrete input: a single Running
workload requesting 5.0 CPU cores (and 1 GiB of memory) whose cost entry
has `TotalCost = $100` yields exactly one Rightsizing recommendation with
savings `$30`. -/
theorem C3_rightsizing_positional_w :
    (∃ rec ∈ findOverProvisionedPods [pod5] [entry100],
      rec.Priority = "High" ∧ rec.Category = "Rightsizing" ∧
      rec.Savings = entry100.TotalCost * 0.3 ∧
      rec.Title = "Rightsize over-provisioned pod: " ++ pod5.Name) ∧
    findOverProvisionedPods [pod5] [entry100] =
      [{ Title := "Rightsize over-provisioned pod: " ++ pod5.Name
         Description := "This pod requests significant resources. Consider rightsizing based on actual usage metrics."
         Savings := 30
         Priority := "High"
         Category := "Rightsizing" }] ∧
    entry100.TotalCost = 100 := by
  have hlen : (pod5.Containers.filter overProvisionedContainer).length = 1 := by
    norm_num [pod5, overProvisionedContainer, List.filter_cons]
  have hover : overProvisionedContainer
      ⟨⟨some 5, some (1024 * 1024 * 1024), none⟩, ResourceList.empty⟩ = true := by
    norm_num [overProvisionedContainer]
  refine ⟨C3_rightsizing_positional.1 [pod5] [entry100] 0 (by norm_num)
    ⟨⟨some 5, some (1024 * 1024 * 1024), none⟩, ResourceList.empty⟩ rfl
    (List.mem_singleton_self _) hover (by norm_num), ?_, rfl⟩
  rw [C3_rightsizing_positional.2 pod5 entry100 rfl hlen]
  norm_num [entry100, Recommendation.mk.injEq]

/-- C3 counterexample: `ceBig` is Running with a qualifying 5-core
container, and `[calculatePodCost DefaultPricing ceBig]` is exactly its
precomputed cost report (a valid `CalculatePodCosts` result for the pods
`[cePending, ceBig]`).  Yet `findOverProvisionedPods` emits NO
recommendation at all: the pod's input index is 1 while the filtered cost
sequence has length 1, so the claimed recommendation (with savings 30% of
that workload's TotalCost) does not exist. -/
theorem C3_rightsizing_counterexample :
    ceBig.Phase = "Running" ∧
    (∃ c ∈ ceBig.Containers, overProvisionedContainer c = true) ∧
    CalculatePodCosts DefaultPricing [cePending, ceBig] []
      [calculatePodCost DefaultPricing ceBig] ∧
    findOverProvisionedPods [cePending, ceBig] [calculatePodCost DefaultPricing ceBig] = [] := by
  refine ⟨rfl, ⟨⟨⟨some 5, some (1024 * 1024 * 1024), none⟩, ResourceList.empty⟩,
    List.mem_singleton_self _, ?_⟩, ⟨List.Perm.refl _, by simp [SortedByTotalCostDesc]⟩, ?_⟩
  · norm_num [overProvisionedContainer]
  · have h1 : overProvisionedRecsAt [calculatePodCost DefaultPricing ceBig] 0 cePending = [] := by
      unfold overProvisionedRecsAt
      rw [if_neg (by decide)]
    have h2 : overProvisionedRecsAt [calculatePodCost DefaultPricing ceBig] 1 ceBig = [] := by
      unfold overProvisionedRecsAt
      rw [if_pos (by decide)]
      refine List.filterMap_eq_nil_iff.mpr ?_
      intro c hcmem
      rw [dif_neg (by decide)]
    show overProvisionedRecsAt [calculatePodCost DefaultPricing ceBig] 0 cePending ++
      (overProvisionedRecsAt [calculatePodCost DefaultPricing ceBig] 1 ceBig ++ []) = []
    rw [h1, h2]
    rfl

/-- A pod whose containers request no GPU at all produces no
expensive-GPU recommendation, whatever its index and the cost data. -/
theorem expensiveGpuRecAt_none_of_no_request_gpu (costs : List PodCost) (i : ℕ)
    (pod : Pod) (hreq : ∀ c ∈ pod.Containers, c.Requests.gpu = none) :
    expensiveGpuRecAt costs i pod = none := by
  have h0 : podRequestGpuCount pod = 0 := by
    unfold podRequestGpuCount
    apply List.sum_eq_zero
    intro x hx
    obtain ⟨c, hcmem, rfl⟩ := List.mem_map.mp hx
    rw [hreq c hcmem]
    rfl
  unfold expensiveGpuRecAt
  rw [h0]
  simp

/-- The indexed expensive-GPU loop returns nothing when no pod requests a
GPU. -/
theorem gpuRecsFrom_eq_nil (costs : List PodCost) (pods : List Pod) : ∀ start : ℕ,
    (∀ p ∈ pods, ∀ c ∈ p.Containers, c.Requests.gpu = none) →
    gpuRecsFrom costs start pods = [] := by
  induction pods with
  | nil => intro _ _; rfl
  | cons p rest ih =>
    intro start hall
    simp only [gpuRecsFrom]
    rw [expensiveGpuRecAt_none_of_no_request_gpu costs start p
        (hall p (List.mem_cons_self _ _)),
      ih (start + 1) (fun q hq => hall q (List.mem_cons_of_mem _ hq))]
    rfl

/-- C10: the expensive-GPU-usage heuristic gates on container GPU REQUESTS
only.  A workload that declares the accelerator resource exclusively in
container limits (so it has no request-side GPU count) never produces a
GPU-category recommendation, regardless of its phase, its index, and of
how large its `GPUCost` share is in the supplied cost entries. -/
theorem C10_gpu_requests_only_gate (costs : List PodCost) (i : ℕ) (pod : Pod)
    (hreq : ∀ c ∈ pod.Containers, c.Requests.gpu = none) :
    expensiveGpuRecAt costs i pod = none ∧
    ∀ pods : List Pod, (∀ p ∈ pods, ∀ c ∈ p.Containers, c.Requests.gpu = none) →
      findExpensiveGPUUsage pods costs = [] :=
  ⟨expensiveGpuRecAt_none_of_no_request_gpu costs i pod hreq,
    fun pods hall => gpuRecsFrom_eq_nil costs pods 0 hall⟩

/-- Witness for C10 at a concrete input: `wGpuLim` is Running and declares
one GPU only in its limits; its own cost entry has `GPUCost` positive and
above 70% of `TotalCost`, yet no recommendation is produced. -/
theorem C10_gpu_requests_only_gate_w :
    expensiveGpuRecAt [calculatePodCost DefaultPricing wGpuLim] 0 wGpuLim = none ∧
    findExpensiveGPUUsage [wGpuLim] [calculatePodCost DefaultPricing wGpuLim] = [] ∧
    (calculatePodCost DefaultPricing wGpuLim).GPUCost >
      (calculatePodCost DefaultPricing wGpuLim).TotalCost * 0.7 ∧
    (calculatePodCost DefaultPricing wGpuLim).GPUCost > 0 :=
  ⟨(C10_gpu_requests_only_gate [calculatePodCost DefaultPricing wGpuLim] 0 wGpuLim
      (by decide)).1,
   (C10_gpu_requests_only_gate [calculatePodCost DefaultPricing wGpuLim] 0 wGpuLim
      (by decide)).2 [wGpuLim] (by decide),
   by norm_num [calculatePodCost, billableCpu, billableMem, podCpuRequest, podMemRequest,
     podCpuLimit, podMemLimit, podGpuCount, wGpuLim, DefaultPricing,
     Pricing.CalculateCPUCost, Pricing.CalculateMemoryCost, Pricing.CalculateGPUCost,
     hoursPerMonth, ResourceList.empty],
   by norm_num [calculatePodCost, podGpuCount, wGpuLim, DefaultPricing,
     Pricing.CalculateGPUCost, hoursPerMonth, ResourceList.empty]⟩

end Kcavo
